import Mathlib

/-!
Shallow embedding of the core analytics pipeline of `src/app.py`
(1X2 value-signals dashboard): record loading/type coercion, the filter
engine `apply_filters`, the action-conditional field picker
`pick_by_action`, the derived bet metrics (`is_bet`, `ev_cb`, `edge_cb`),
and the aggregator (scalar KPIs, contingency table, hit-rate, per-league
rollup).

Modelling conventions:
- A pandas cell that is NaN/NaT/None, or whose field was absent from the
  raw document, is `Option.none`; numeric cells are `Rat` (floats in the
  source carry exact decimal values in every scenario of interest).
- A `DFrame` carries its rows together with `cols`, the set of column
  names of the pandas DataFrame: `pd.DataFrame(rows)` has a column
  exactly when at least one raw document carries that key.  Subscripting
  a missing column (`df["c"]`) raises `KeyError`; every function of the
  source that subscripts a column is therefore embedded in
  `Except String`, returning `.error "KeyError: c"` when `c` is not a
  column, exactly where the source would raise.
- Dates are encoded as `Nat` in the order-preserving form
  `year*10000 + month*100 + day`; `pd.to_datetime(..., errors="coerce")`
  failures are `none` (NaT).  All comparisons a NaT participates in are
  false in pandas, which the `Option` matches below reproduce.
- `DataFrame.sort_values(["date","dia_id"], na_position="last")` is a
  stable lexicographic sort with missing keys last; it is embedded as a
  stable insertion sort under the comparator `row_le`.
-/

/-- `str(x).upper()` applied to a cell holding an optional string:
a NaN cell stringifies to `"nan"`, hence uppercases to `"NAN"`
(mirrors `.astype(str).str.upper()` and `str(row.get(...))`).
Uppercasing maps `Char.toUpper` over the characters; this is
extensionally `String.toUpper`, which is avoided only because its
`partial` helper cannot be unfolded by the kernel. -/
def sUpper (o : Option String) : String :=
  String.mk ((o.getD "nan").data.map Char.toUpper)

/-- One row of the loaded DataFrame, after the type coercions of
`fetch_df` (lines 42-45 of `src/app.py`): `date` parsed with
`errors="coerce"`, the four `cb_*` money columns coerced with
`pd.to_numeric(errors="coerce")`.  `ev_cb`/`edge_cb` are the derived
columns assigned at lines 91-92; the loader leaves them `none`. -/
structure Row where
  doc_id : String := ""
  date : Option Nat := none
  dia_id : Option Nat := none
  league : Option String := none
  cb_action : Option String := none
  result : Option String := none
  cb_stake : Option Rat := none
  cb_pnl : Option Rat := none
  cb_bank_after : Option Rat := none
  cb_dd_after : Option Rat := none
  ev_H : Option Rat := none
  ev_D : Option Rat := none
  ev_A : Option Rat := none
  edge_H : Option Rat := none
  edge_D : Option Rat := none
  edge_A : Option Rat := none
  ev_cb : Option Rat := none
  edge_cb : Option Rat := none
deriving DecidableEq

/-- A pandas DataFrame: its rows plus its column index.  A column is in
`cols` exactly when some raw document carried the key. -/
structure DFrame where
  rows : List Row
  cols : List String
deriving DecidableEq

/-- The natural number denoted by a nonempty all-digit character group,
`none` otherwise. -/
def digitsToNat? (cs : List Char) : Option Nat :=
  if cs ≠ [] ∧ cs.all (fun c => c.isDigit) then
    some (cs.foldl (fun n c => n * 10 + (c.toNat - 48)) 0)
  else none

/-- Strict `%Y-%m-%d` parse with `errors="coerce"`
(`pd.to_datetime(df["date"], format="%Y-%m-%d", errors="coerce")`,
line 42): three dash-separated all-digit groups of widths 4/2/2 with a
plausible month and day, encoded as `y*10000 + m*100 + d`; anything else
is NaT (`none`).  (Day-in-month validity is simplified to `1..31`; no
claim exercises the difference.) -/
def parse_date (s : String) : Option Nat :=
  match s.data.splitOn '-' with
  | [y, m, d] =>
    match digitsToNat? y, digitsToNat? m, digitsToNat? d with
    | some yn, some mn, some dn =>
      if y.length = 4 && m.length = 2 && d.length = 2 &&
         1 ≤ mn && mn ≤ 12 && 1 ≤ dn && dn ≤ 31 then
        some (yn * 10000 + mn * 100 + dn)
      else none
    | _, _, _ => none
  | _ => none

/-- Ascending comparison of one sort key with `na_position="last"`:
a missing key sorts after every present key. -/
def keyLe (a b : Option Nat) : Bool :=
  match a, b with
  | some x, some y => x ≤ y
  | some _, none => true
  | none, some _ => false
  | none, none => true

/-- Strict version of `keyLe`. -/
def keyLt (a b : Option Nat) : Bool :=
  match a, b with
  | some x, some y => x < y
  | some _, none => true
  | _, _ => false

/-- Lexicographic row comparator of
`sort_values(["date","dia_id"], ascending=True, na_position="last")`
(line 56): primary key `date`, tie-broken by `dia_id`, missing keys
last on each key. -/
def row_le (a b : Row) : Bool :=
  keyLt a.date b.date || (a.date = b.date && keyLe a.dia_id b.dia_id)

/-- The stable sort of line 56: pandas' multi-key `sort_values` is a
stable lexicographic sort, embedded as a stable insertion sort under
`row_le`. -/
def sort_rows (l : List Row) : List Row :=
  List.insertionSort (fun a b => row_le a b = true) l

/-- The inclusive date-range predicate of line 55:
`(out["date"] >= date_from) & (out["date"] <= date_to)`.  A NaT date
satisfies neither comparison, so the row is dropped. -/
def date_in_range (date_from date_to : Nat) (r : Row) : Bool :=
  match r.date with
  | some d => date_from ≤ d && d ≤ date_to
  | none => false

/-- `apply_filters(df, league, date_from, date_to, cb_action)`
(lines 49-56): optional league equality filter, optional uppercased
action filter, inclusive date range, then the stable `(date, dia_id)`
sort.  Each column subscript requires the column to exist. -/
def apply_filters (df : DFrame) (league : String)
    (date_from date_to : Nat) (cb_action : String) :
    Except String DFrame := do
  let out := df.rows
  let out ←
    if league = "ALL" then pure out
    else if "league" ∈ df.cols then
      pure (out.filter (fun r => r.league = some league))
    else throw "KeyError: league"
  let out ←
    if cb_action = "ALL" then pure out
    else if "cb_action" ∈ df.cols then
      pure (out.filter (fun r => sUpper r.cb_action = cb_action))
    else throw "KeyError: cb_action"
  let out ←
    if "date" ∈ df.cols then pure (out.filter (date_in_range date_from date_to))
    else throw "KeyError: date"
  if "dia_id" ∈ df.cols then
    pure { rows := sort_rows out, cols := df.cols }
  else throw "KeyError: dia_id"

/-- `pick_by_action(row, prefix)` (lines 58-63): uppercase the
stringified `cb_action` and select the `{prefix}_H` / `{prefix}_D` /
`{prefix}_A` field accordingly, `None` otherwise.  `row.get` of an
unknown key is `None`, so an unknown field name yields `none`. -/
def pick_by_action (r : Row) (pfx : String) : Option Rat :=
  let a := sUpper r.cb_action
  if a = "H" then
    if pfx = "ev" then r.ev_H else if pfx = "edge" then r.edge_H else none
  else if a = "D" then
    if pfx = "ev" then r.ev_D else if pfx = "edge" then r.edge_D else none
  else if a = "A" then
    if pfx = "ev" then r.ev_A else if pfx = "edge" then r.edge_A else none
  else none

/-- `df_f["cb_action"].astype(str).str.upper().ne("NO_BET")` (line 89),
per row. -/
def is_bet (r : Row) : Bool :=
  sUpper r.cb_action ≠ "NO_BET"

/-- The column assignments of lines 91-92 on one bet row. -/
def set_derived (r : Row) : Row :=
  { r with ev_cb := pick_by_action r "ev", edge_cb := pick_by_action r "edge" }

/-- Lines 89-92: build `df_bets` from the filtered frame — the rows
whose `is_bet` flag is true, with `ev_cb`/`edge_cb` assigned.  Line 89
subscripts the `cb_action` column, so it must exist. -/
def mk_bets (df_f : DFrame) : Except String DFrame :=
  if "cb_action" ∈ df_f.cols then
    .ok { rows := (df_f.rows.filter is_bet).map set_derived,
          cols := df_f.cols ++ ["is_bet", "ev_cb", "edge_cb"] }
  else .error "KeyError: cb_action"

/-- `matches = len(df_f)` (line 97; `matches` is a Lean keyword, hence
the `kpi_` prefix). -/
def kpi_matches (df_f : DFrame) : Nat := df_f.rows.length

/-- `bets = len(df_bets)` (line 98). -/
def bets (df_bets : DFrame) : Nat := df_bets.rows.length

/-- `float(df_bets["cb_stake"].fillna(0).sum()) if bets else 0.0`
(line 99): the column is only subscripted when the bet subset is
nonempty. -/
def stake_total (df_bets : DFrame) : Except String Rat :=
  if bets df_bets ≠ 0 then
    if "cb_stake" ∈ df_bets.cols then
      .ok ((df_bets.rows.map (fun r => r.cb_stake.getD 0)).sum)
    else .error "KeyError: cb_stake"
  else .ok 0

/-- `float(df_bets["cb_pnl"].fillna(0).sum()) if bets else 0.0`
(line 100). -/
def pnl_total (df_bets : DFrame) : Except String Rat :=
  if bets df_bets ≠ 0 then
    if "cb_pnl" ∈ df_bets.cols then
      .ok ((df_bets.rows.map (fun r => r.cb_pnl.getD 0)).sum)
    else .error "KeyError: cb_pnl"
  else .ok 0

/-- `roi_simple = (pnl_total / stake_total) if stake_total > 0 else 0.0`
(line 101). -/
def roi_simple (stake pnl : Rat) : Rat :=
  if stake > 0 then pnl / stake else 0

/-- `df_f["cb_bank_after"].dropna().iloc[-1] if
df_f["cb_bank_after"].notna().any() else None` (line 102): the last
non-NaN `cb_bank_after` in the frame's current (chronological) order,
`None` when all are NaN.  Both branches subscript the column. -/
def bank_final (df_f : DFrame) : Except String (Option Rat) :=
  if "cb_bank_after" ∈ df_f.cols then
    .ok ((df_f.rows.filterMap (fun r => r.cb_bank_after)).getLast?)
  else .error "KeyError: cb_bank_after"

/-- `df_f["cb_dd_after"].dropna().max() if
df_f["cb_dd_after"].notna().any() else None` (line 103): the maximum of
the non-NaN values, `None` when there is none. -/
def max_dd (df_f : DFrame) : Except String (Option Rat) :=
  if "cb_dd_after" ∈ df_f.cols then
    .ok ((df_f.rows.filterMap (fun r => r.cb_dd_after)).max?)
  else .error "KeyError: cb_dd_after"

/-- The hit predicate of line 168, per row:
`cb_action` stringified-uppercased equals `result`
stringified-uppercased. -/
def hit_match (r : Row) : Bool :=
  sUpper r.cb_action = sUpper r.result

/-- `.mean()` of a boolean series: the fraction of `true` entries. -/
def bool_mean (bs : List Bool) : Rat :=
  ((bs.map (fun b => if b then (1 : Rat) else 0)).sum) / (bs.length : Rat)

/-- `hit_rate = float((df_bets["cb_action"].astype(str).str.upper() ==
df_bets["result"].astype(str).str.upper()).mean())` (line 168). -/
def hit_rate (df_bets : DFrame) : Except String Rat :=
  if "cb_action" ∈ df_bets.cols then
    if "result" ∈ df_bets.cols then
      .ok (bool_mean (df_bets.rows.map hit_match))
    else .error "KeyError: result"
  else .error "KeyError: cb_action"

/-- One cell of the `pd.crosstab` of lines 160-164: the number of bet
rows whose stringified-uppercased `cb_action` is `a` and whose
stringified-uppercased `result` is `g` (a cell absent from the crosstab
corresponds to a zero count). -/
def conf_count (l : List Row) (a g : String) : Nat :=
  l.countP (fun r => sUpper r.cb_action = a && sUpper r.result = g)

/-- One output row of the per-league rollup of lines 171-181. -/
structure LeagueAgg where
  league : Option String
  lbets : Nat
  stake_total : Rat
  pnl_total : Rat
  ev_sum : Rat
  roi_simple : Rat
deriving DecidableEq

/-- The distinct `league` keys of a row list, in first-appearance order
(`groupby("league", dropna=False)` keeps the NaN key as its own group;
pandas additionally sorts the group keys, an ordering no claim depends
on and which is not modelled). -/
def league_keys : List Row → List (Option String) → List (Option String)
  | [], _ => []
  | r :: rs, seen =>
    if r.league ∈ seen then league_keys rs seen
    else r.league :: league_keys rs (r.league :: seen)

/-- `groupby("league", dropna=False).agg(...)` plus the ROI column of
line 181: per league, the group size, the NaN-skipping sums of
`cb_stake`, `cb_pnl`, `ev_cb`, and
`(pnl_total / stake_total) if stake_total else 0.0` — note the guard is
Python truthiness, i.e. `stake_total ≠ 0`, not `> 0`. -/
def by_league (l : List Row) : List LeagueAgg :=
  (league_keys l []).map (fun k =>
    let g := l.filter (fun r => r.league = k)
    let stake := (g.map (fun r => r.cb_stake.getD 0)).sum
    let pnl := (g.map (fun r => r.cb_pnl.getD 0)).sum
    let evs := (g.map (fun r => r.ev_cb.getD 0)).sum
    { league := k, lbets := g.length, stake_total := stake,
      pnl_total := pnl, ev_sum := evs,
      roi_simple := if stake ≠ 0 then pnl / stake else 0 })

/-! ### Concrete record sets

The three-record scenario of spec §8.6, and the small frames used as
counterexamples, failing inputs and witnesses. -/

/-- §8.6 record 1: an `H` bet, stake 10, pnl 5, `evH` 0.12, result `H`. -/
def rowH : Row :=
  { doc_id := "d1", date := some 20240101, dia_id := some 1,
    cb_action := some "H", cb_stake := some 10, cb_pnl := some 5,
    ev_H := some (12/100), result := some "H" }

/-- §8.6 record 2: a `NO_BET` row. -/
def rowNB : Row :=
  { doc_id := "d2", date := some 20240102, dia_id := some 1,
    cb_action := some "NO_BET" }

/-- §8.6 record 3: a `D` bet, stake 10, pnl -10, `evD` 0.03, result `A`. -/
def rowD : Row :=
  { doc_id := "d3", date := some 20240103, dia_id := some 1,
    cb_action := some "D", cb_stake := some 10, cb_pnl := some (-10),
    ev_D := some (3/100), result := some "A" }

/-- The column index `pd.DataFrame` builds for the §8.6 records: the
union of the keys the three documents carry. -/
def scen_cols : List String :=
  ["_doc_id", "date", "dia_id", "cb_action", "cb_stake", "cb_pnl",
   "ev_H", "ev_D", "result"]

/-- The loaded frame of the §8.6 scenario. -/
def dfScen : DFrame := { rows := [rowH, rowNB, rowD], cols := scen_cols }

/-- The filtered frame of the §8.6 scenario (all three records pass the
`ALL`/`ALL`/full-range filter; they are already in `(date, dia_id)`
order). -/
def dfScenF : DFrame := { rows := [rowH, rowNB, rowD], cols := scen_cols }

/-- The bet subset of the §8.6 scenario. -/
def dbScen : DFrame :=
  { rows := [set_derived rowH, set_derived rowD],
    cols := scen_cols ++ ["is_bet", "ev_cb", "edge_cb"] }

/-- A record whose date string (e.g. `"not-a-date"`) failed to parse:
the loader leaves `date` as NaT. -/
def rowNaT : Row :=
  { doc_id := "dx", date := none, dia_id := some 1, cb_action := some "H" }

/-- Record set for the C1 counterexample: one parseable-date record and
one NaT record; the minimum and maximum parsed dates are both
`2024-01-01`. -/
def dfNaT : DFrame := { rows := [rowNaT, rowH], cols := scen_cols }

/-- A bet row whose `cb_action` and `result` are both absent: both
stringify to `"nan"`. -/
def rowNaN : Row := { doc_id := "dn", date := some 20240101 }

/-- Single-row bet subset for the C2 counterexample. -/
def dbNaN : DFrame :=
  { rows := [rowNaN], cols := ["_doc_id", "date", "cb_action", "result"] }

/-- A bet row whose league has a negative total stake (C3
counterexample). -/
def rowNeg : Row :=
  { doc_id := "dg", league := some "X", cb_action := some "H",
    cb_stake := some (-10), cb_pnl := some 5 }

/-- An empty filtered frame that still carries the full column index
(C8 witness). -/
def dfEmpty : DFrame :=
  { rows := [],
    cols := scen_cols ++ ["cb_bank_after", "cb_dd_after", "league"] }

/-- C9 failing input: a single document carrying no `cb_bank_after`
(and no `cb_dd_after`) key, so the loaded frame has no such column. -/
def rowC9 : Row :=
  { doc_id := "d1", date := some 20240101, dia_id := some 1,
    league := some "L1", cb_action := some "H", cb_stake := some 10 }

/-- The frame loaded from the C9 failing input. -/
def dfC9 : DFrame :=
  { rows := [rowC9],
    cols := ["_doc_id", "date", "dia_id", "league", "cb_action", "cb_stake"] }

/-- A second document that does carry `cb_bank_after`: with it present
on a subset of rows the column exists and the pipeline succeeds. -/
def rowC9b : Row :=
  { doc_id := "d2", date := some 20240102, dia_id := some 1,
    league := some "L1", cb_action := some "A", cb_bank_after := some 100 }

/-- Heterogeneous frame: `cb_bank_after` present on one of two rows. -/
def dfC9b : DFrame :=
  { rows := [rowC9, rowC9b],
    cols := ["_doc_id", "date", "dia_id", "league", "cb_action",
             "cb_stake", "cb_bank_after"] }

/-- A frame with a bankroll/drawdown history: two non-absent
`cb_bank_after` values and a gap (C4 witness). -/
def dfBank : DFrame :=
  { rows := [{ doc_id := "b1", cb_bank_after := some 105,
               cb_dd_after := some (1/10) },
             { doc_id := "b2" },
             { doc_id := "b3", cb_bank_after := some 98,
               cb_dd_after := some (2/10) }],
    cols := ["_doc_id", "cb_bank_after", "cb_dd_after"] }

/-! ### Order properties of the sort comparator -/

/-- `keyLe` is total. -/
theorem keyLe_total (a b : Option Nat) : keyLe a b = true ∨ keyLe b a = true := by
  cases a <;> cases b <;> simp [keyLe] <;> omega

/-- `keyLt` is transitive. -/
theorem keyLt_trans (a b c : Option Nat) :
    keyLt a b = true → keyLt b c = true → keyLt a c = true := by
  cases a <;> cases b <;> cases c <;> simp [keyLt] <;> omega

/-- `keyLe` is transitive. -/
theorem keyLe_trans (a b c : Option Nat) :
    keyLe a b = true → keyLe b c = true → keyLe a c = true := by
  cases a <;> cases b <;> cases c <;> simp [keyLe] <;> omega

/-- Trichotomy for the single-key order. -/
theorem keyLt_trichotomy (a b : Option Nat) :
    keyLt a b = true ∨ keyLt b a = true ∨ a = b := by
  cases a <;> cases b <;> simp [keyLt] <;> omega

/-- `keyLt` is irreflexive. -/
theorem keyLt_irrefl (a : Option Nat) : keyLt a a = false := by
  cases a <;> simp [keyLt]

/-- The row comparator is total. -/
theorem row_le_total (a b : Row) : row_le a b = true ∨ row_le b a = true := by
  rcases keyLt_trichotomy a.date b.date with h | h | h
  · exact Or.inl (by simp [row_le, h])
  · exact Or.inr (by simp [row_le, h])
  · rcases keyLe_total a.dia_id b.dia_id with h2 | h2
    · exact Or.inl (by simp [row_le, h, h2])
    · exact Or.inr (by simp [row_le, h, h2])

/-- The row comparator is transitive. -/
theorem row_le_trans (a b c : Row) :
    row_le a b = true → row_le b c = true → row_le a c = true := by
  simp only [row_le, Bool.or_eq_true, Bool.and_eq_true, decide_eq_true_eq]
  rintro (h1 | ⟨e1, l1⟩) (h2 | ⟨e2, l2⟩)
  · exact Or.inl (keyLt_trans _ _ _ h1 h2)
  · exact Or.inl (e2 ▸ h1)
  · exact Or.inl (e1 ▸ h2)
  · exact Or.inr ⟨e1.trans e2, keyLe_trans _ _ _ l1 l2⟩

instance : IsTotal Row (fun a b => row_le a b = true) := ⟨row_le_total⟩

instance : IsTrans Row (fun a b => row_le a b = true) := ⟨row_le_trans⟩

/-! ### Helper lemmas -/

/-- Derived-column assignment does not change the bet flag. -/
theorem is_bet_set_derived (r : Row) : is_bet (set_derived r) = is_bet r := rfl

/-- The mean of an indicator series is the match count over the
length. -/
theorem bool_mean_map (l : List Row) (p : Row → Bool) :
    bool_mean (l.map p) = ((l.countP p : Rat)) / ((l.length : Rat)) := by
  have h : ∀ t : List Row,
      ((t.map p).map (fun b => if b then (1 : Rat) else 0)).sum = (t.countP p : Rat) := by
    intro t
    induction t with
    | nil => simp
    | cons a t ih =>
      simp only [List.map_cons, List.sum_cons, ih, List.countP_cons]
      cases hp : p a <;> simp [hp] <;> ring
  unfold bool_mean
  rw [h l, List.length_map]

/-! ### Claim theorems -/

/-- **C5** — `pick_by_action` selects the `{prefix}_H` / `{prefix}_D` /
`{prefix}_A` field according to the uppercased stringified `cb_action`,
and is absent for every other action value (including `NO_BET`,
unrecognized strings, or a missing action, which stringifies to
`"NAN"`); it is a pure total Lean function, so it never raises, and a
missing target field simply makes the returned `Option` `none`
(likewise an unknown field name, mirroring `row.get` of an absent
key). -/
theorem C5_pick_by_action (r : Row) (pfx : String) :
    (sUpper r.cb_action = "H" →
      pick_by_action r "ev" = r.ev_H ∧ pick_by_action r "edge" = r.edge_H) ∧
    (sUpper r.cb_action = "D" →
      pick_by_action r "ev" = r.ev_D ∧ pick_by_action r "edge" = r.edge_D) ∧
    (sUpper r.cb_action = "A" →
      pick_by_action r "ev" = r.ev_A ∧ pick_by_action r "edge" = r.edge_A) ∧
    (sUpper r.cb_action ≠ "H" → sUpper r.cb_action ≠ "D" →
      sUpper r.cb_action ≠ "A" → pick_by_action r pfx = none) ∧
    (r.cb_action = none → pick_by_action r pfx = none) ∧
    (pfx ≠ "ev" → pfx ≠ "edge" → pick_by_action r pfx = none) := by
  refine ⟨?_, ?_, ?_, ?_, ?_, ?_⟩ <;> intros <;> simp_all [pick_by_action, sUpper]

/-- **C5 witness** — on the §8.6 `H`-bet the picker returns the `ev_H`
field, and on the `NO_BET` row (any field name) it returns absent. -/
theorem C5_witness :
    pick_by_action rowH "ev" = rowH.ev_H ∧ pick_by_action rowNB "proba" = none :=
  ⟨((C5_pick_by_action rowH "ev").1 (by decide)).1,
   (C5_pick_by_action rowNB "proba").2.2.2.1 (by decide) (by decide) (by decide)⟩

/-- **C6** — `is_bet` is false exactly when the uppercased stringified
`cb_action` is `"NO_BET"`, and true for every other value; the derived
`ev_cb`/`edge_cb` columns are assigned only on the bet subset: every
`df_bets` row is a bet, each bet row of the filtered frame appears there
with its picker-derived values, and no non-bet row has any derived
counterpart in `df_bets`. -/
theorem C6_is_bet (df_f : DFrame) (r : Row) (h : "cb_action" ∈ df_f.cols) :
    (is_bet r = false ↔ sUpper r.cb_action = "NO_BET") ∧
    ∃ db, mk_bets df_f = .ok db ∧
      (∀ r' ∈ db.rows, is_bet r' = true) ∧
      (∀ r' ∈ df_f.rows, is_bet r' = true →
        set_derived r' ∈ db.rows ∧
        (set_derived r').ev_cb = pick_by_action r' "ev" ∧
        (set_derived r').edge_cb = pick_by_action r' "edge") ∧
      (∀ r' ∈ df_f.rows, is_bet r' = false → set_derived r' ∉ db.rows) := by
  refine ⟨by simp [is_bet], ?_⟩
  refine ⟨_, by rw [mk_bets, if_pos h], ?_, ?_, ?_⟩
  · intro r' hr'
    rcases List.mem_map.mp hr' with ⟨x, hx, rfl⟩
    rw [is_bet_set_derived]
    exact List.of_mem_filter hx
  · intro r' hr' hb
    exact ⟨List.mem_map_of_mem _ (List.mem_filter.mpr ⟨hr', hb⟩), rfl, rfl⟩
  · intro r' _ hb hmem
    rcases List.mem_map.mp hmem with ⟨x, hx, heq⟩
    have hx' : is_bet x = true := List.of_mem_filter hx
    have : is_bet (set_derived x) = is_bet (set_derived r') := congrArg is_bet heq
    rw [is_bet_set_derived, is_bet_set_derived, hx', hb] at this
    exact Bool.true_eq_false.mp this

/-- **C6 witness** — in the §8.6 scenario the `NO_BET` row is not a bet
and its derived counterpart is absent from the bet subset, while the
`H`-bet row is a bet and appears there with `ev_cb` as picked. -/
theorem C6_witness :
    (is_bet rowNB = false ↔ sUpper rowNB.cb_action = "NO_BET") ∧
    ∃ db, mk_bets dfScenF = .ok db ∧
      set_derived rowNB ∉ db.rows ∧
      set_derived rowH ∈ db.rows ∧
      (set_derived rowH).ev_cb = pick_by_action rowH "ev" := by
  have h := C6_is_bet dfScenF rowNB (by decide)
  have h2 := C6_is_bet dfScenF rowH (by decide)
  refine ⟨h.1, ?_⟩
  rcases h.2 with ⟨db, hok, hall, hpos, hneg⟩
  rcases h2.2 with ⟨db2, hok2, _, hpos2, _⟩
  have hdb : db2 = db := by
    rw [hok] at hok2
    exact (Except.ok.inj hok2).symm
  subst hdb
  have hmemH := hpos2 rowH (by simp [dfScenF]) (by decide)
  exact ⟨db2, hok, hneg rowNB (by simp [dfScenF]) (by decide), hmemH.1, hmemH.2.1⟩

/-- **C9** — failing input for the heterogeneous-schema claim: when no
raw document carries `cb_bank_after`, the loaded frame has no such
column and line 102 (`df_f["cb_bank_after"]`) raises `KeyError` instead
of treating the field as absent (line 103 likewise for `cb_dd_after`);
with the key present on just a subset of rows the column exists and the
same step succeeds, returning the last non-absent value. -/
theorem C9_missing_column_raises :
    "cb_bank_after" ∉ dfC9.cols ∧
    bank_final dfC9 = .error "KeyError: cb_bank_after" ∧
    max_dd dfC9 = .error "KeyError: cb_dd_after" ∧
    (∀ r ∈ dfC9b.rows, r.doc_id = "d1" → r.cb_bank_after = none) ∧
    bank_final dfC9b = .ok (some 100) := by
  refine ⟨by decide, rfl, rfl, ?_, rfl⟩
  intro r hr h1
  fin_cases hr <;> simp_all [rowC9, rowC9b]

/-- **C10** — a record whose `cb_action` is missing stringifies to
`"nan"`, so it is classified as a bet (`is_bet` true), appears in the
bet subset (hence in the `bets` KPI and the hit-rate denominator), the
field picker returns absent for it (so its derived `ev_cb`/`edge_cb`
are absent), and when its `result` is also missing both sides of the
hit-rate comparison uppercase to `"NAN"`, so the row counts as a hit. -/
theorem C10_missing_action (df_f : DFrame) (r : Row)
    (hc : "cb_action" ∈ df_f.cols) (hr : r ∈ df_f.rows)
    (ha : r.cb_action = none) :
    is_bet r = true ∧
    (∀ pfx, pick_by_action r pfx = none) ∧
    (r.result = none → hit_match r = true) ∧
    ∃ db, mk_bets df_f = .ok db ∧ set_derived r ∈ db.rows ∧
      (set_derived r).ev_cb = none ∧ (set_derived r).edge_cb = none ∧
      1 ≤ bets db := by
  have hbet : is_bet r = true := by simp [is_bet, sUpper, ha]
  have hpick : ∀ pfx, pick_by_action r pfx = none := by
    intro pfx
    simp [pick_by_action, sUpper, ha]
  have hmem : set_derived r ∈ (df_f.rows.filter is_bet).map set_derived :=
    List.mem_map_of_mem _ (List.mem_filter.mpr ⟨hr, hbet⟩)
  refine ⟨hbet, hpick, ?_, ?_⟩
  · intro hres
    simp [hit_match, sUpper, ha, hres]
  · refine ⟨_, by rw [mk_bets, if_pos hc], hmem, ?_, ?_, ?_⟩
    · simp [set_derived, hpick]
    · simp [set_derived, hpick]
    · exact Nat.one_le_iff_ne_zero.mpr
        (List.ne_nil_of_mem hmem ∘ List.length_eq_zero.mp)

/-- **C10 witness** — a frame containing a row with both `cb_action`
and `result` missing: the row is a bet, its picked values are absent,
and it counts as a hit. -/
theorem C10_witness :
    is_bet rowNaN = true ∧
    pick_by_action rowNaN "ev" = none ∧
    hit_match rowNaN = true ∧
    ∃ db, mk_bets dbNaN = .ok db ∧ set_derived rowNaN ∈ db.rows ∧
      1 ≤ bets db := by
  have h := C10_missing_action dbNaN rowNaN (by decide)
    (by simp [dbNaN]) (by decide)
  rcases h.2.2.2 with ⟨db, hok, hmem, _, _, hlen⟩
  exact ⟨h.1, h.2.1 "ev", h.2.2.1 (by decide), db, hok, hmem, hlen⟩

/-- **C2 counterexample** — a bet-subset row with `cb_action` and
`result` both absent: the claim says an absent `result` counts as a
non-match, but both cells stringify to `"nan"` and uppercase to
`"NAN"`, so the row matches and the hit-rate over this singleton bet
subset is `1`, not `0`. -/
theorem C2_counterexample :
    is_bet rowNaN = true ∧ rowNaN.result = none ∧ rowNaN.cb_action = none ∧
    hit_match rowNaN = true ∧ hit_rate dbNaN = .ok 1 := by
  have h1 : hit_rate dbNaN = .ok (bool_mean [true]) := rfl
  have h2 : bool_mean [true] = 1 := by simp [bool_mean]
  rw [h1, h2]
  exact ⟨by decide, by decide, by decide, by decide, rfl⟩

/-- **C2 (amended)** — for a nonempty bet subset, the hit-rate equals
the count of rows whose stringified-uppercased `cb_action` equals the
stringified-uppercased `result`, divided by the number of bet-subset
rows; a row with an absent `result` stays in the denominator and is a
non-match whenever its uppercased `cb_action` differs from `"NAN"` (in
particular for every recognized action), but a row whose `cb_action` is
also absent compares `"NAN"` with `"NAN"` and counts as a match. -/
theorem C2_hit_rate (db : DFrame)
    (h1 : "cb_action" ∈ db.cols) (h2 : "result" ∈ db.cols)
    (_hne : db.rows ≠ []) :
    hit_rate db =
      .ok ((db.rows.countP hit_match : Rat) / (db.rows.length : Rat)) ∧
    (∀ r ∈ db.rows, r.result = none → sUpper r.cb_action ≠ "NAN" →
      hit_match r = false) ∧
    (∀ r ∈ db.rows, r.result = none → r.cb_action = none →
      hit_match r = true) := by
  refine ⟨?_, ?_, ?_⟩
  · unfold hit_rate
    rw [if_pos h1, if_pos h2, bool_mean_map]
  · intro r _ hres hact
    have hn : sUpper r.result = "NAN" := by rw [hres]; rfl
    simp [hit_match, hn, hact]
  · intro r _ hres hact
    have hn : sUpper r.result = "NAN" := by rw [hres]; rfl
    have ha : sUpper r.cb_action = "NAN" := by rw [hact]; rfl
    simp [hit_match, hn, ha]

/-- **C2 witness** — the hit-rate of the §8.6 bet subset is the match
count over the row count. -/
theorem C2_witness :
    hit_rate dbScen =
      .ok ((dbScen.rows.countP hit_match : Rat) / (dbScen.rows.length : Rat)) :=
  (C2_hit_rate dbScen (by decide) (by decide) (by decide)).1

/-- **C3 counterexample** — a league whose total stake is negative
(-10, pnl 5): the per-league rollup divides (truthiness guard
`stake_total ≠ 0`) and yields -1/2, while the scalar KPI's zero-guard
(`stake_total > 0`) yields 0 on the same numbers — the two guards are
not the same. -/
theorem C3_counterexample :
    (by_league [rowNeg]).map (fun g => (g.stake_total, g.roi_simple)) =
      [(-10, -1/2)] ∧
    roi_simple (-10) 5 = 0 := by
  constructor
  · simp [by_league, league_keys, rowNeg]
    norm_num
  · simp [roi_simple]

/-- **C3 (amended)** — the scalar `roiSimple` is `pnlTotal / stakeTotal`
when `stakeTotal > 0` and exactly 0 otherwise (the division is guarded);
each per-league `roiSimple` uses the Python-truthiness guard instead:
that league's `pnlTotal / stakeTotal` when its `stakeTotal ≠ 0`, else 0.
The two guards coincide whenever the league's `stakeTotal` is
nonnegative, but a league with a negative `stakeTotal` divides where the
scalar guard would return 0. -/
theorem C3_roi_guards (stake pnl : Rat) (l : List Row) :
    (stake > 0 → roi_simple stake pnl = pnl / stake) ∧
    (¬ stake > 0 → roi_simple stake pnl = 0) ∧
    (∀ g ∈ by_league l,
      (g.stake_total ≠ 0 → g.roi_simple = g.pnl_total / g.stake_total) ∧
      (g.stake_total = 0 → g.roi_simple = 0) ∧
      (0 ≤ g.stake_total → g.roi_simple = roi_simple g.stake_total g.pnl_total)) := by
  refine ⟨fun h => by simp [roi_simple, h], fun h => by simp [roi_simple, h], ?_⟩
  intro g hg
  rcases List.mem_map.mp hg with ⟨k, hk, rfl⟩
  dsimp only
  refine ⟨fun h => by simp [h], fun h => by simp [h], fun h => ?_⟩
  rcases eq_or_lt_of_le h with he | hl
  · simp [roi_simple, ← he]
  · simp [roi_simple, hl, ne_of_gt hl]

/-- **C3 witness** — scalar guard on the §8.6 numbers and the
truthiness guard on the negative-stake league. -/
theorem C3_witness :
    roi_simple 20 (-5) = (-5) / 20 ∧
    ∀ g ∈ by_league [rowNeg], g.stake_total ≠ 0 →
      g.roi_simple = g.pnl_total / g.stake_total := by
  have h := C3_roi_guards 20 (-5) [rowNeg]
  exact ⟨h.1 (by norm_num), fun g hg hne => (h.2.2 g hg).1 hne⟩

instance : Std.Antisymm (fun x1 x2 : Rat => x1 ≤ x2) :=
  ⟨fun h1 h2 => le_antisymm h1 h2⟩

/-- **C4** — `stakeTotal` and `pnlTotal` sum `cb_stake`/`cb_pnl` over
the bet subset with absent values as 0 (for summation only — the row
values themselves are untouched); `bankFinal` is the last non-absent
`cb_bank_after` in the filtered frame's (chronological) row order and
absent exactly when every `cb_bank_after` is absent; `maxDrawdown` is
the maximum of the non-absent `cb_dd_after` values and absent exactly
when every one is absent. -/
theorem C4_aggregates (df_f db : DFrame)
    (h1 : "cb_stake" ∈ db.cols) (h2 : "cb_pnl" ∈ db.cols)
    (h3 : "cb_bank_after" ∈ df_f.cols) (h4 : "cb_dd_after" ∈ df_f.cols) :
    stake_total db = .ok ((db.rows.map (fun r => r.cb_stake.getD 0)).sum) ∧
    pnl_total db = .ok ((db.rows.map (fun r => r.cb_pnl.getD 0)).sum) ∧
    bank_final df_f =
      .ok ((df_f.rows.filterMap (fun r => r.cb_bank_after)).getLast?) ∧
    (bank_final df_f = .ok none ↔ ∀ r ∈ df_f.rows, r.cb_bank_after = none) ∧
    (∀ m, max_dd df_f = .ok (some m) →
      m ∈ df_f.rows.filterMap (fun r => r.cb_dd_after) ∧
      ∀ x ∈ df_f.rows.filterMap (fun r => r.cb_dd_after), x ≤ m) ∧
    (max_dd df_f = .ok none ↔ ∀ r ∈ df_f.rows, r.cb_dd_after = none) := by
  have hbank : bank_final df_f =
      .ok ((df_f.rows.filterMap (fun r => r.cb_bank_after)).getLast?) := by
    unfold bank_final
    rw [if_pos h3]
  have hmax : max_dd df_f =
      .ok ((df_f.rows.filterMap (fun r => r.cb_dd_after)).max?) := by
    unfold max_dd
    rw [if_pos h4]
  refine ⟨?_, ?_, hbank, ?_, ?_, ?_⟩
  · unfold stake_total
    rcases Decidable.em (bets db ≠ 0) with hb | hb
    · rw [if_pos hb, if_pos h1]
    · rw [if_neg hb]
      have hlen : db.rows = [] := List.length_eq_zero.mp (not_ne_iff.mp hb)
      rw [hlen]
      simp
  · unfold pnl_total
    rcases Decidable.em (bets db ≠ 0) with hb | hb
    · rw [if_pos hb, if_pos h2]
    · rw [if_neg hb]
      have hlen : db.rows = [] := List.length_eq_zero.mp (not_ne_iff.mp hb)
      rw [hlen]
      simp
  · rw [hbank]
    simp only [Except.ok.injEq, List.getLast?_eq_none_iff,
      List.filterMap_eq_nil_iff]
  · intro m hm
    rw [hmax] at hm
    have := Except.ok.inj hm
    exact (List.max?_eq_some_iff (fun a => le_refl a)
      (fun a b => max_choice a b) (fun a b c => max_le_iff)).mp this
  · rw [hmax]
    simp only [Except.ok.injEq, List.max?_eq_none_iff,
      List.filterMap_eq_nil_iff]

/-- **C4 witness** — on a concrete bankroll history the last non-absent
`cb_bank_after` is selected, and the §8.6 bet subset's stake responds
with the fillna-0 sum. -/
theorem C4_witness :
    stake_total dbScen =
      .ok ((dbScen.rows.map (fun r => r.cb_stake.getD 0)).sum) ∧
    bank_final dfBank =
      .ok ((dfBank.rows.filterMap (fun r => r.cb_bank_after)).getLast?) := by
  have h := C4_aggregates dfBank dbScen (by decide) (by decide)
    (by decide) (by decide)
  exact ⟨h.1, h.2.2.1⟩

/-- **C8** — on an empty filtered frame (that still carries its
columns) every aggregate degrades gracefully with no error: matches 0,
an empty bet subset, stakeTotal and pnlTotal 0, roiSimple 0, bankFinal
and maxDrawdown absent; and for an empty bet subset alone the
bet-subset aggregates are 0 with no error. -/
theorem C8_empty_sets (df_f db : DFrame)
    (hc : "cb_action" ∈ df_f.cols)
    (hb : "cb_bank_after" ∈ df_f.cols) (hd : "cb_dd_after" ∈ df_f.cols) :
    (df_f.rows = [] →
      kpi_matches df_f = 0 ∧
      (∃ dbx, mk_bets df_f = .ok dbx ∧ bets dbx = 0 ∧
        stake_total dbx = .ok 0 ∧ pnl_total dbx = .ok 0) ∧
      roi_simple 0 0 = 0 ∧
      bank_final df_f = .ok none ∧ max_dd df_f = .ok none) ∧
    (db.rows = [] → bets db = 0 ∧ stake_total db = .ok 0 ∧
      pnl_total db = .ok 0 ∧ roi_simple 0 0 = 0) := by
  have hempty : ∀ d : DFrame, d.rows = [] →
      bets d = 0 ∧ stake_total d = .ok 0 ∧ pnl_total d = .ok 0 := by
    intro d hrows
    have hb0 : bets d = 0 := by simp [bets, hrows]
    refine ⟨hb0, ?_, ?_⟩
    · unfold stake_total
      rw [if_neg (by simp [hb0])]
    · unfold pnl_total
      rw [if_neg (by simp [hb0])]
  constructor
  · intro hrows
    refine ⟨by simp [kpi_matches, hrows], ?_, by simp [roi_simple], ?_, ?_⟩
    · refine ⟨_, by rw [mk_bets, if_pos hc], ?_⟩
      have : ((df_f.rows.filter is_bet).map set_derived) = [] := by
        simp [hrows]
      exact hempty _ this
    · unfold bank_final
      rw [if_pos hb, hrows]
      rfl
    · unfold max_dd
      rw [if_pos hd, hrows]
      rfl
  · intro hrows
    exact ⟨(hempty db hrows).1, (hempty db hrows).2.1, (hempty db hrows).2.2,
      by simp [roi_simple]⟩

/-- **C8 witness** — the empty frame with the full column index: all
empty-state aggregate values hold. -/
theorem C8_witness :
    kpi_matches dfEmpty = 0 ∧ bank_final dfEmpty = .ok none ∧
    max_dd dfEmpty = .ok none ∧ stake_total dfEmpty = .ok 0 := by
  have h := C8_empty_sets dfEmpty dfEmpty (by decide) (by decide) (by decide)
  have h1 := h.1 rfl
  exact ⟨h1.1, h1.2.2.2.1, h1.2.2.2.2, (h.2 rfl).2.1⟩

/-- **C1 counterexample** — a record set with one record whose date
string (`"not-a-date"`) failed to parse: with `dateFrom = dateTo =
2024-01-01` (the minimum and maximum parsed dates), the filter with
league `"ALL"` and action `"ALL"` does **not** return every record —
the NaT-date record is excluded by the inclusive range predicate (a NaT
satisfies neither bound), not placed last. -/
theorem C1_counterexample :
    parse_date "not-a-date" = none ∧
    parse_date "2024-01-01" = some 20240101 ∧
    rowNaT ∈ dfNaT.rows ∧ rowNaT.date = none ∧
    dfNaT.rows.filterMap (fun r => r.date) = [20240101] ∧
    apply_filters dfNaT "ALL" 20240101 20240101 "ALL" =
      .ok { rows := [rowH], cols := scen_cols } ∧
    rowNaT ∉ [rowH] := by
  refine ⟨by decide, by decide, by simp [dfNaT], by decide, by decide, rfl,
    by decide⟩

/-- **C1 (amended)** — for every loaded record set whose parsed dates
all lie in `[m, M]` (in particular `m` = minimum parsed date, `M` =
maximum parsed date), the `league:"ALL"`, `action:"ALL"`, `[m, M]`
filter succeeds and returns exactly the records with a parseable date,
each exactly once (a permutation of that sublist), sorted ascending by
`(date, dia_id)`; every record whose date failed to parse is excluded
from the result rather than placed last. -/
theorem C1_filter_all_range (df : DFrame) (m M : Nat)
    (hdate : "date" ∈ df.cols) (hdia : "dia_id" ∈ df.cols)
    (hbound : ∀ r ∈ df.rows, ∀ d, r.date = some d → m ≤ d ∧ d ≤ M) :
    ∃ out, apply_filters df "ALL" m M "ALL" = .ok out ∧
      out.rows.Perm (df.rows.filter (fun r => r.date.isSome)) ∧
      out.rows.Pairwise (fun a b => row_le a b = true) ∧
      ∀ r ∈ df.rows, r.date = none → r ∉ out.rows := by
  have hfe : df.rows.filter (date_in_range m M) =
      df.rows.filter (fun r => r.date.isSome) := by
    apply List.filter_congr
    intro r hr
    cases hd : r.date with
    | none => simp [date_in_range, hd]
    | some d =>
      have hb := hbound r hr d hd
      simp [date_in_range, hd, hb.1, hb.2]
  have hrun : apply_filters df "ALL" m M "ALL" =
      .ok { rows := sort_rows (df.rows.filter (date_in_range m M)),
            cols := df.cols } := by
    unfold apply_filters
    simp only [reduceIte, hdate, hdia, if_true, pure_bind]
    rfl
  refine ⟨_, hrun, ?_, ?_, ?_⟩
  · rw [hfe]
    exact List.perm_insertionSort _ _
  · exact List.sorted_insertionSort (fun a b => row_le a b = true) _
  · intro r _ hnone hmem
    have hperm : (sort_rows (df.rows.filter (date_in_range m M))).Perm
        (df.rows.filter (fun r => r.date.isSome)) := by
      rw [hfe]
      exact List.perm_insertionSort _ _
    have := List.of_mem_filter (hperm.mem_iff.mp hmem)
    rw [hnone] at this
    exact Bool.false_ne_true this

/-- **C1 witness** — on the §8.6 scenario (all dates parse, bounds
2024-01-01 .. 2024-01-03) the `ALL`/`ALL`/full-range filter returns a
permutation of the parseable-date records in sorted order. -/
theorem C1_witness :
    ∃ out, apply_filters dfScen "ALL" 20240101 20240103 "ALL" = .ok out ∧
      out.rows.Perm (dfScen.rows.filter (fun r => r.date.isSome)) ∧
      out.rows.Pairwise (fun a b => row_le a b = true) ∧
      ∀ r ∈ dfScen.rows, r.date = none → r ∉ out.rows :=
  C1_filter_all_range dfScen 20240101 20240103 (by decide) (by decide)
    (by
      intro r hr d hd
      fin_cases hr <;> simp [rowH, rowNB, rowD] at hd <;> omega)

/-- **C7** — the three-record scenario of spec §8.6: filtering with
league `"ALL"`, action `"ALL"` over the full date range yields the
three records in order; the bet subset has the `H` and `D` bets;
`matches = 3`, `bets = 2`, `stakeTotal = 20`, `pnlTotal = -5`,
`roiSimple = -1/4`, `hitRate = 1/2`; and the action×result contingency
table has cell `("H","H") = 1`, cell `("D","A") = 1` and every other
cell `0`. -/
theorem C7_scenario :
    apply_filters dfScen "ALL" 20240101 20240103 "ALL" = .ok dfScenF ∧
    mk_bets dfScenF = .ok dbScen ∧
    kpi_matches dfScenF = 3 ∧ bets dbScen = 2 ∧
    stake_total dbScen = .ok 20 ∧ pnl_total dbScen = .ok (-5) ∧
    roi_simple 20 (-5) = -1/4 ∧ hit_rate dbScen = .ok (1/2) ∧
    conf_count dbScen.rows "H" "H" = 1 ∧ conf_count dbScen.rows "D" "A" = 1 ∧
    (∀ a g : String, ¬(a = "H" ∧ g = "H") → ¬(a = "D" ∧ g = "A") →
      conf_count dbScen.rows a g = 0) := by
  have hst : stake_total dbScen = .ok ((10 : Rat) + (10 + 0)) := rfl
  have hpn : pnl_total dbScen = .ok ((5 : Rat) + (-10 + 0)) := rfl
  have hhr : hit_rate dbScen = .ok (bool_mean [true, false]) := rfl
  have hbm : bool_mean [true, false] = 1/2 := by norm_num [bool_mean]
  refine ⟨rfl, rfl, rfl, rfl, ?_, ?_, ?_, ?_, by decide, by decide, ?_⟩
  · rw [hst]
    norm_num
  · rw [hpn]
    norm_num
  · norm_num [roi_simple]
  · rw [hhr, hbm]
  · intro a g h1 h2
    have eA1 : sUpper (set_derived rowH).cb_action = "H" := rfl
    have eR1 : sUpper (set_derived rowH).result = "H" := rfl
    have eA2 : sUpper (set_derived rowD).cb_action = "D" := rfl
    have eR2 : sUpper (set_derived rowD).result = "A" := rfl
    have hne1 : ¬("H" = a ∧ "H" = g) := fun hp => h1 ⟨hp.1.symm, hp.2.symm⟩
    have hne2 : ¬("D" = a ∧ "A" = g) := fun hp => h2 ⟨hp.1.symm, hp.2.symm⟩
    simp [conf_count, dbScen, List.countP_cons, eA1, eR1, eA2, eR2, hne1, hne2]

/-- **C7 witness** — an off-diagonal cell of the scenario's contingency
table, at a concrete pair of labels, is zero. -/
theorem C7_witness : conf_count dbScen.rows "A" "NAN" = 0 :=
  C7_scenario.2.2.2.2.2.2.2.2.2.2 "A" "NAN" (by simp) (by simp)
